import Mathlib

/-!
Verification of the Booking Derivation Module of the hotel
property-management application (the `Booking` page component).

The embedding models the derivation logic of the reservation wizard:

* `computeNights` — the arithmetic core of the source function
  `calculateNights` (millisecond timestamps in, nights out);
* `calculateNights` — the source function on raw date strings, guarded by
  the JavaScript truthiness test `if (arrival && departure)`; the `parse`
  argument abstracts `new Date(s).getTime()`, with `none` playing the role
  of an invalid date (`NaN` timestamp);
* `handleArrivalDateChange` / `handleDepartureDateChange` — the two date
  input `onChange` handlers;
* `updatePaymentSplit` — the `amountPaidToday` input `onChange` handler;
* `computeTotal` — the total price expression
  `(room?.rate || 0) * numberOfNights * numberOfRooms`;
* `selectableRoomCounts` / `clampRoomCount` — the option list of the
  "Number of Rooms" select,
  `Array.from({length: Math.min(10, availableCount)}, (_, i) => i + 1)`,
  and the count a user requesting a given number of rooms ends up holding;
* `getSelectedRoom`, `assembleBooking`, `handleConfirmBooking` — the
  booking-confirmation handler.

JavaScript numbers are modelled as `ℚ`, counts as `ℕ`, millisecond
timestamps as `ℤ`.
-/

namespace BookingApp

/-- Arithmetic core of `calculateNights`: given arrival and departure
timestamps in milliseconds, `Math.ceil(timeDiff / (1000*3600*24))`,
then `nights > 0 ? nights : 0`. -/
def computeNights (arrivalMs departureMs : ℤ) : ℤ :=
  let timeDiff : ℤ := departureMs - arrivalMs
  let nights : ℤ := ⌈(timeDiff : ℚ) / (1000 * 3600 * 24)⌉
  if 0 < nights then nights else 0

/-- The source function `calculateNights(arrival, departure)` acting on the
stored `numberOfNights` value.  The guard `if (arrival && departure)` checks
string truthiness (non-emptiness); when it fails nothing is stored and the
previous value survives.  `parse` abstracts `new Date(s).getTime()`; `none`
models a `NaN` timestamp, for which `Math.ceil(NaN) > 0` is false and 0 is
stored. -/
def calculateNights (parse : String → Option ℤ) (arrival departure : String)
    (storedNights : ℤ) : ℤ :=
  if arrival = "" ∨ departure = "" then storedNights
  else
    match parse arrival, parse departure with
    | some a, some d => computeNights a d
    | _, _ => 0

/-- The slice of the wizard state touched by the date inputs. -/
structure StayState where
  arrivalDate : String
  departureDate : String
  numberOfNights : ℤ
deriving DecidableEq

/-- The arrival date input handler:
`setArrivalDate(v); calculateNights(v, departureDate)`. -/
def handleArrivalDateChange (parse : String → Option ℤ) (v : String)
    (st : StayState) : StayState :=
  { arrivalDate := v
    departureDate := st.departureDate
    numberOfNights := calculateNights parse v st.departureDate st.numberOfNights }

/-- The departure date input handler:
`setDepartureDate(v); calculateNights(arrivalDate, v)`. -/
def handleDepartureDateChange (parse : String → Option ℤ) (v : String)
    (st : StayState) : StayState :=
  { arrivalDate := st.arrivalDate
    departureDate := v
    numberOfNights := calculateNights parse st.arrivalDate v st.numberOfNights }

/-- Timestamps of the concrete date strings appearing in the end-to-end
scenarios, as JavaScript `new Date(s).getTime()` produces them
(milliseconds since the epoch, UTC midnight); every other string is mapped
to `none`, the invalid-date (`NaN`) outcome. -/
def parseDateMs (s : String) : Option ℤ :=
  if s = "2024-01-15" then some 1705276800000
  else if s = "2024-01-20" then some 1705708800000
  else none

/-- The `amountPaidToday` input handler: stores the entered value and
`remaining > 0 ? remaining : 0` where `remaining = amount - paidToday`.
Result: `(amountPaidToday, remainingBalance)`. -/
def updatePaymentSplit (total paidToday : ℚ) : ℚ × ℚ :=
  let remaining : ℚ := total - paidToday
  (paidToday, if 0 < remaining then remaining else 0)

/-- The total price expression of the room details panel:
`rate * numberOfNights * numberOfRooms`. -/
def computeTotal (rate nights roomCount : ℚ) : ℚ :=
  rate * nights * roomCount

/-- The option list of the "Number of Rooms" select:
`Array.from({ length: Math.min(10, availableCount) }, (_, i) => i + 1)`. -/
def selectableRoomCounts (availableCount : ℕ) : List ℕ :=
  (List.range (min 10 availableCount)).map (fun i => i + 1)

/-- The room count a user requesting `requested` rooms ends up holding:
the greatest option of the select not exceeding the request, the least
option when every option exceeds it, and `none` when the select offers no
option at all. -/
def clampRoomCount (requested availableCount : ℕ) : Option ℕ :=
  let counts := selectableRoomCounts availableCount
  match (counts.filter (fun n => decide (n ≤ requested))).getLast? with
  | some c => some c
  | none => counts.head?

/-- The `Room` record of the booking page. -/
structure Room where
  id : String
  hotelId : String
  type : String
  boardType : String
  description : String
  rate : ℚ
  available : Bool
  status : String
  availableCount : Option ℕ
deriving DecidableEq

/-- The `Guest` record of the booking page (the guest-data form state). -/
structure Guest where
  fullName : String
  email : String
  guestClassification : String
  travelAgent : String
  company : String
  source : String
  group : String
  arrival : String
  departure : String
  vip : Bool
  nationality : String
  telephone : String
  roomNo : String
  rateCode : String
  roomRate : ℚ
  payment : String
  resId : String
  profileId : String
deriving DecidableEq

/-- The `Payment` record of the booking page. -/
structure Payment where
  method : String
  amount : ℚ
  date : String
  startDate : Option String
  completionDate : Option String
  amountPaidToday : Option ℚ
  remainingBalance : Option ℚ
deriving DecidableEq

/-- The `Booking` record assembled at confirmation time. -/
structure Booking where
  id : String
  resId : String
  guest : Guest
  room : Room
  numberOfRooms : ℕ
  payment : Payment
  status : String
  createdAt : String
deriving DecidableEq

/-- The slice of the wizard state read or written by `handleConfirmBooking`. -/
structure BookingFormState where
  selectedRoomId : String
  numberOfRooms : ℕ
  arrivalDate : String
  departureDate : String
  guestData : Guest
  paymentData : Payment
  bookings : List Booking
  rooms : List Room
deriving DecidableEq

/-- `getSelectedRoom`: `rooms.find(room => room.id === selectedRoomId)`. -/
def getSelectedRoom (st : BookingFormState) : Option Room :=
  st.rooms.find? (fun room => room.id == st.selectedRoomId)

/-- The `newBooking` object literal of `handleConfirmBooking`.  `now` stands
for `Date.now()` and `nowIso` for `new Date().toISOString()`.  The guest
snapshot is spread with `arrival`, `departure` and `roomRate` overridden;
`resId` falls back to a generated one when `guestData.resId` is falsy
(the empty string). -/
def assembleBooking (now : ℕ) (nowIso : String) (st : BookingFormState)
    (selectedRoom : Room) : Booking :=
  { id := toString now
    resId := if st.guestData.resId = "" then "RES" ++ toString now else st.guestData.resId
    guest := { st.guestData with
               arrival := st.arrivalDate
               departure := st.departureDate
               roomRate := selectedRoom.rate }
    room := selectedRoom
    numberOfRooms := st.numberOfRooms
    payment := st.paymentData
    status := "confirmed"
    createdAt := nowIso }

/-- `handleConfirmBooking`: when the selected room is found, append the
assembled booking via `setBookings([...bookings, newBooking])`; otherwise
do nothing.  The result is the bookings list after the handler. -/
def handleConfirmBooking (now : ℕ) (nowIso : String) (st : BookingFormState) :
    List Booking :=
  match getSelectedRoom st with
  | some selectedRoom => st.bookings ++ [assembleBooking now nowIso st selectedRoom]
  | none => st.bookings

/-- A concrete guest record whose `roomRate` has been edited to 300 through
the Alternative Price input. -/
def sampleGuest : Guest :=
  { fullName := "Ahmed Mohammed Al-Rashid"
    email := "ahmed@example.com"
    guestClassification := "Saudi Citizen"
    travelAgent := "Emirates Travel Agency"
    company := "Al-Rashid Trading Co."
    source := "Online Booking"
    group := "Business Group"
    arrival := "2024-01-15"
    departure := "2024-01-20"
    vip := true
    nationality := "UAE"
    telephone := "+971-50-123-4567"
    roomNo := "205"
    rateCode := "CORP"
    roomRate := 300
    payment := "credit"
    resId := "RES-2024-001"
    profileId := "PROF-12345" }

/-- A concrete room with nightly rate 250 and 3 rooms available. -/
def sampleRoom : Room :=
  { id := "room-1"
    hotelId := "hotel-1"
    type := "Deluxe Room"
    boardType := "Bed & breakfast"
    description := "Spacious room"
    rate := 250
    available := true
    status := "available"
    availableCount := some 3 }

/-- A concrete payment record. -/
def samplePayment : Payment :=
  { method := "credit"
    amount := 1250
    date := "2024-01-15"
    startDate := some "2024-01-15"
    completionDate := some "2024-01-25"
    amountPaidToday := some 500
    remainingBalance := some 750 }

/-- A concrete form state whose selected room is present in the loaded
rooms list. -/
def sampleState : BookingFormState :=
  { selectedRoomId := "room-1"
    numberOfRooms := 2
    arrivalDate := "2024-01-16"
    departureDate := "2024-01-21"
    guestData := sampleGuest
    paymentData := samplePayment
    bookings := []
    rooms := [sampleRoom] }

/-- A concrete form state whose selected room id matches no loaded room,
with one previously assembled booking already in the list. -/
def sampleStateNoRoom : BookingFormState :=
  { sampleState with
    selectedRoomId := "room-404"
    bookings := [assembleBooking 1 "2024-01-16T00:00:00.000Z" sampleState sampleRoom] }

/-! ## Helper lemmas -/

theorem computeNights_eq_max (a d : ℤ) :
    computeNights a d = max 0 ⌈((d - a : ℤ) : ℚ) / (1000 * 3600 * 24)⌉ := by
  simp only [computeNights]
  split_ifs with h <;> omega

theorem computeNights_nonneg (a d : ℤ) : 0 ≤ computeNights a d := by
  simp only [computeNights]
  split_ifs with h <;> omega

theorem computeNights_of_nonpos (a d : ℤ) (h : d - a ≤ 0) :
    computeNights a d = 0 := by
  have hq : ((d - a : ℤ) : ℚ) / (1000 * 3600 * 24) ≤ 0 :=
    div_nonpos_of_nonpos_of_nonneg (by exact_mod_cast h) (by norm_num)
  have hc : ⌈((d - a : ℤ) : ℚ) / (1000 * 3600 * 24)⌉ ≤ 0 :=
    Int.ceil_le.mpr (by exact_mod_cast hq)
  simp only [computeNights]
  split_ifs with h2 <;> omega

theorem computeNights_of_diff_le_day (a d : ℤ) (h1 : 0 < d - a)
    (h2 : d - a ≤ 86400000) : computeNights a d = 1 := by
  have h1q : (0 : ℚ) < ((d - a : ℤ) : ℚ) := by exact_mod_cast h1
  have h2q : ((d - a : ℤ) : ℚ) ≤ 86400000 := by exact_mod_cast h2
  have hq1 : (0 : ℚ) < ((d - a : ℤ) : ℚ) / (1000 * 3600 * 24) :=
    div_pos h1q (by norm_num)
  have hq2 : ((d - a : ℤ) : ℚ) / (1000 * 3600 * 24) ≤ 1 := by
    rw [div_le_one (by norm_num)]
    linarith
  have hc : ⌈((d - a : ℤ) : ℚ) / (1000 * 3600 * 24)⌉ = 1 := by
    rw [Int.ceil_eq_iff]
    refine ⟨?_, ?_⟩
    · rw [Int.cast_one]
      linarith
    · rw [Int.cast_one]
      exact hq2
  simp only [computeNights, hc]
  norm_num

theorem calculateNights_of_parsed (parse : String → Option ℤ)
    (sa sd : String) (a d stored : ℤ) (ha : sa ≠ "") (hd : sd ≠ "")
    (hpa : parse sa = some a) (hpd : parse sd = some d) :
    calculateNights parse sa sd stored = computeNights a d := by
  simp only [calculateNights, hpa, hpd]
  rw [if_neg (by simp [ha, hd])]

theorem selectableRoomCounts_eq_range (a : ℕ) :
    selectableRoomCounts a = List.range' 1 (min 10 a) := by
  rw [selectableRoomCounts, List.range'_eq_map_range]
  exact List.map_congr_left (fun i _ => Nat.add_comm i 1)

theorem filter_le_range (r n : ℕ) :
    (List.range' 1 n).filter (fun m => decide (m ≤ r)) = List.range' 1 (min r n) := by
  induction n with
  | zero => simp
  | succ n ih =>
    rw [List.range'_1_concat, List.filter_append, ih]
    by_cases h : n + 1 ≤ r
    · have h1 : min r n = n := by omega
      have h2 : min r (n + 1) = n + 1 := by omega
      rw [h1, h2, List.range'_1_concat]
      simp [show (1 + n ≤ r) from by omega]
    · have h1 : min r n = r := by omega
      have h2 : min r (n + 1) = r := by omega
      rw [h1, h2]
      simp [show ¬ (1 + n ≤ r) from by omega]

theorem clampRoomCount_eq (requested availableCount : ℕ)
    (h : 1 ≤ availableCount) :
    clampRoomCount requested availableCount =
      some (max 1 (min requested (min 10 availableCount))) := by
  simp only [clampRoomCount, selectableRoomCounts_eq_range, filter_le_range,
    List.getLast?_range', List.head?_range']
  by_cases hr : 1 ≤ requested
  · rw [if_neg (show ¬ min requested (min 10 availableCount) = 0 from by omega)]
    show some (1 + min requested (min 10 availableCount) - 1) = _
    congr 1
    omega
  · rw [if_pos (show min requested (min 10 availableCount) = 0 from by omega)]
    show (if min 10 availableCount = 0 then none else some 1) = _
    rw [if_neg (show ¬ min 10 availableCount = 0 from by omega)]
    congr 1
    omega

/-! ## Claim theorems -/

/-- C1: for every pair of parseable arrival and departure dates (timestamps
`a`, `d` in milliseconds), the computed nights value is the day difference
rounded up to the next whole day and clamped to 0: a nonpositive difference
yields 0, a difference in (0, 1 day] yields 1, the result is a nonnegative
integer, and `calculateNights` on the parseable strings produces exactly
this value. -/
theorem computeNights_ceil_clamped (a d : ℤ) :
    computeNights a d = max 0 ⌈((d - a : ℤ) : ℚ) / (1000 * 3600 * 24)⌉ ∧
    0 ≤ computeNights a d ∧
    (d - a ≤ 0 → computeNights a d = 0) ∧
    (0 < d - a → d - a ≤ 86400000 → computeNights a d = 1) ∧
    (∀ (parse : String → Option ℤ) (sa sd : String) (stored : ℤ),
      sa ≠ "" → sd ≠ "" → parse sa = some a → parse sd = some d →
      calculateNights parse sa sd stored = computeNights a d) :=
  ⟨computeNights_eq_max a d, computeNights_nonneg a d,
   computeNights_of_nonpos a d,
   computeNights_of_diff_le_day a d,
   fun parse sa sd stored ha hd hpa hpd =>
     calculateNights_of_parsed parse sa sd a d stored ha hd hpa hpd⟩

/-- Witness for C1: concrete instances for a zero difference, a one-day
difference, and the parseable pair 2024-01-15 / 2024-01-20. -/
theorem computeNights_ceil_clamped_witness :
    ((0 : ℤ) - 0 ≤ 0 ∧ computeNights 0 0 = 0) ∧
    ((0 : ℤ) < 86400000 - 0 ∧ (86400000 : ℤ) - 0 ≤ 86400000 ∧
      computeNights 0 86400000 = 1) ∧
    (("2024-01-15" : String) ≠ "" ∧
      parseDateMs "2024-01-15" = some 1705276800000 ∧
      parseDateMs "2024-01-20" = some 1705708800000 ∧
      calculateNights parseDateMs "2024-01-15" "2024-01-20" 7 =
        computeNights 1705276800000 1705708800000) := by
  refine ⟨?_, ?_, ?_⟩
  · exact ⟨by norm_num, (computeNights_ceil_clamped 0 0).2.2.1 (by norm_num)⟩
  · exact ⟨by norm_num, by norm_num,
      (computeNights_ceil_clamped 0 86400000).2.2.2.1 (by norm_num) (by norm_num)⟩
  · refine ⟨by decide, rfl, rfl, ?_⟩
    exact (computeNights_ceil_clamped 1705276800000 1705708800000).2.2.2.2
      parseDateMs "2024-01-15" "2024-01-20" 7 (by decide) (by decide) rfl rfl

/-- C2: `updatePaymentSplit` stores `remainingBalance = max(0, total −
paidToday)`; the stored balance is never negative and is exactly 0 whenever
`paidToday ≥ total`; the entered `paidToday` is stored unchanged. -/
theorem updatePaymentSplit_spec (total paidToday : ℚ) :
    (updatePaymentSplit total paidToday).2 = max 0 (total - paidToday) ∧
    0 ≤ (updatePaymentSplit total paidToday).2 ∧
    (total ≤ paidToday → (updatePaymentSplit total paidToday).2 = 0) ∧
    (updatePaymentSplit total paidToday).1 = paidToday := by
  simp only [updatePaymentSplit]
  refine ⟨?_, ?_, ?_, trivial⟩
  · split_ifs with h
    · exact (max_eq_right h.le).symm
    · exact (max_eq_left (le_of_not_lt h)).symm
  · split_ifs with h
    · exact h.le
    · exact le_rfl
  · intro hle
    rw [if_neg (by linarith)]

/-- Witness for C2: paying 150 against a total of 100 leaves a remaining
balance of exactly 0. -/
theorem updatePaymentSplit_spec_witness :
    (100 : ℚ) ≤ 150 ∧ (updatePaymentSplit 100 150).2 = 0 :=
  ⟨by norm_num, (updatePaymentSplit_spec 100 150).2.2.1 (by norm_num)⟩

/-- C7: end-to-end scenario: arrival 2024-01-15 and departure 2024-01-20
give 5 nights; rate 250 with 5 nights and 2 rooms gives total 2500; paying
500 of that total leaves a remaining balance of 2000. -/
theorem endToEnd_scenario :
    calculateNights parseDateMs "2024-01-15" "2024-01-20" 0 = 5 ∧
    computeTotal 250 5 2 = 2500 ∧
    (updatePaymentSplit 2500 500).2 = 2000 := by
  refine ⟨?_, by norm_num [computeTotal], by norm_num [updatePaymentSplit]⟩
  simp [calculateNights, parseDateMs]
  norm_num [computeNights]

/-- C8: `computeTotal` is linear in each argument: doubling any one of
rate, nights or room count while holding the other two fixed doubles the
result. -/
theorem computeTotal_linear (rate nights roomCount : ℚ) :
    computeTotal (2 * rate) nights roomCount = 2 * computeTotal rate nights roomCount ∧
    computeTotal rate (2 * nights) roomCount = 2 * computeTotal rate nights roomCount ∧
    computeTotal rate nights (2 * roomCount) = 2 * computeTotal rate nights roomCount := by
  refine ⟨?_, ?_, ?_⟩ <;> simp only [computeTotal] <;> ring

/-- C3 counterexample: requesting 15 of 20 available rooms yields 10 — the
select never offers more than 10 — not min(15, 20) = 15; and with 0
available rooms no count is selectable at all, so no value ≥ 1 is held. -/
theorem clampRoomCount_counterexample :
    clampRoomCount 15 20 = some 10 ∧
    (some 10 : Option ℕ) ≠ some (min 15 20) ∧
    clampRoomCount 1 0 = none := by decide

/-- C3 amended: when at least one room is available, the held room count is
min(requested, availableCount, 10) floored at 1 — never above the
availability, never above the hard cap of 10, never below 1 — and
requesting 10 with 3 available yields 3.  When no room is available, no
count is selectable. -/
theorem clampRoomCount_amended (requested availableCount : ℕ)
    (h : 1 ≤ availableCount) :
    clampRoomCount requested availableCount =
      some (max 1 (min requested (min 10 availableCount))) ∧
    (∀ c, clampRoomCount requested availableCount = some c →
      1 ≤ c ∧ c ≤ availableCount ∧ c ≤ 10) ∧
    clampRoomCount 10 3 = some 3 := by
  refine ⟨clampRoomCount_eq requested availableCount h, ?_, by decide⟩
  intro c hc
  rw [clampRoomCount_eq requested availableCount h] at hc
  injection hc with hc
  omega

/-- Witness for C3 amended: the scenario of requesting 10 rooms with 3
available, evaluated through the amended theorem. -/
theorem clampRoomCount_amended_witness :
    1 ≤ (3 : ℕ) ∧ clampRoomCount 10 3 = some (max 1 (min 10 (min 10 3))) :=
  ⟨by norm_num, (clampRoomCount_amended 10 3 (by norm_num)).1⟩

/-- C10: the selectable number-of-rooms values are exactly the integers 1
through min(10, availableCount): never more than 10 even when more than 10
rooms are available, and nothing at all when the availability is 0. -/
theorem selectableRoomCounts_mem (availableCount n : ℕ) :
    n ∈ selectableRoomCounts availableCount ↔
      1 ≤ n ∧ n ≤ min 10 availableCount := by
  rw [selectableRoomCounts_eq_range, List.mem_range'_1]
  omega

/-- C5 counterexample: with arrival 2024-01-15, departure 2024-01-20 and 5
stored nights, changing the departure input to the empty string leaves the
stored nights value at 5 — it is not replaced by the recomputed 0 the claim
prescribes for an invalid range. -/
theorem dateChange_empty_counterexample :
    (handleDepartureDateChange parseDateMs ""
      { arrivalDate := "2024-01-15", departureDate := "2024-01-20",
        numberOfNights := 5 }).numberOfNights = 5 ∧
    (5 : ℤ) ≠ 0 := by
  refine ⟨rfl, by decide⟩

/-- C5 amended: each date input handler stores the entered value and
replaces the stored nights by the recomputed result whenever both dates are
nonempty — 0 for any unparseable or inverted range, with no error — but
when either date is empty the stored nights value is left unchanged. -/
theorem dateChange_amended (parse : String → Option ℤ) (v : String)
    (st : StayState) :
    ((handleArrivalDateChange parse v st).arrivalDate = v ∧
      (handleArrivalDateChange parse v st).departureDate = st.departureDate ∧
      (handleArrivalDateChange parse v st).numberOfNights =
        calculateNights parse v st.departureDate st.numberOfNights) ∧
    ((handleDepartureDateChange parse v st).departureDate = v ∧
      (handleDepartureDateChange parse v st).arrivalDate = st.arrivalDate ∧
      (handleDepartureDateChange parse v st).numberOfNights =
        calculateNights parse st.arrivalDate v st.numberOfNights) ∧
    (∀ sa sd : String, sa ≠ "" → sd ≠ "" →
      (parse sa = none ∨ parse sd = none ∨
        (∃ x y, parse sa = some x ∧ parse sd = some y ∧ y ≤ x)) →
      calculateNights parse sa sd st.numberOfNights = 0) ∧
    (∀ sa sd : String, (sa = "" ∨ sd = "") →
      calculateNights parse sa sd st.numberOfNights = st.numberOfNights) := by
  refine ⟨⟨rfl, rfl, rfl⟩, ⟨rfl, rfl, rfl⟩, ?_, ?_⟩
  · intro sa sd ha hd hbad
    have hne : ¬ (sa = "" ∨ sd = "") := by
      rintro (h1 | h2)
      exacts [ha h1, hd h2]
    rcases hbad with hna | hnd | ⟨x, y, hx, hy, hyx⟩
    · simp [calculateNights, hne, hna]
    · cases hpa : parse sa with
      | none => simp [calculateNights, hne, hpa]
      | some x => simp [calculateNights, hne, hpa, hnd]
    · simp [calculateNights, hne, hx, hy,
        computeNights_of_nonpos x y (by omega)]
  · intro sa sd hor
    simp only [calculateNights, if_pos hor]

/-- Witness for C5 amended: an unparseable nonempty date recomputes the
stored nights to 0, while an empty date leaves the stored value of 7
untouched. -/
theorem dateChange_amended_witness :
    (("abc" : String) ≠ "" ∧ parseDateMs "abc" = none ∧
      calculateNights parseDateMs "abc" "2024-01-20" 7 = 0) ∧
    calculateNights parseDateMs "" "2024-01-20" 7 = 7 := by
  refine ⟨⟨by decide, rfl, ?_⟩, ?_⟩
  · exact (dateChange_amended parseDateMs "" ⟨"", "", 7⟩).2.2.1 "abc" "2024-01-20"
      (by decide) (by decide) (Or.inl rfl)
  · exact (dateChange_amended parseDateMs "" ⟨"", "", 7⟩).2.2.2 "" "2024-01-20"
      (Or.inl rfl)

/-- C4 counterexample: in a state where the Alternative Price input has set
`guestData.roomRate` to 300 and the selected room's rate is 250, the
booking assembled by `handleConfirmBooking` carries a guest record that is
not verbatim equal to the current guest data — its `roomRate` has been
replaced by the room's rate. -/
theorem assembleBooking_counterexample :
    (handleConfirmBooking 99 "2024-01-16T00:00:00.000Z" sampleState).map
        (fun b => b.guest) ≠ [sampleState.guestData] ∧
    (handleConfirmBooking 99 "2024-01-16T00:00:00.000Z" sampleState).map
        (fun b => b.guest.roomRate) = [(250 : ℚ)] ∧
    sampleState.guestData.roomRate = 300 := by decide

/-- C4 amended: the Booking assembled on confirmation has identifier
`toString now` from the current timestamp and creation time `nowIso`; its
room and payment fields are verbatim the selected room and the current
payment inputs, and its guest field is the current guest data with exactly
three fields replaced — `arrival` and `departure` by the current date
inputs and `roomRate` by the selected room's rate — every other guest field
verbatim; `resId` is the guest's unless empty, in which case it is
generated from the timestamp. -/
theorem handleConfirmBooking_assembly (now : ℕ) (nowIso : String)
    (st : BookingFormState) (selectedRoom : Room)
    (h : getSelectedRoom st = some selectedRoom) :
    handleConfirmBooking now nowIso st =
      st.bookings ++ [assembleBooking now nowIso st selectedRoom] ∧
    (assembleBooking now nowIso st selectedRoom).id = toString now ∧
    (assembleBooking now nowIso st selectedRoom).createdAt = nowIso ∧
    (assembleBooking now nowIso st selectedRoom).room = selectedRoom ∧
    (assembleBooking now nowIso st selectedRoom).payment = st.paymentData ∧
    (assembleBooking now nowIso st selectedRoom).numberOfRooms = st.numberOfRooms ∧
    (assembleBooking now nowIso st selectedRoom).status = "confirmed" ∧
    (assembleBooking now nowIso st selectedRoom).resId =
      (if st.guestData.resId = "" then "RES" ++ toString now else st.guestData.resId) ∧
    (assembleBooking now nowIso st selectedRoom).guest.arrival = st.arrivalDate ∧
    (assembleBooking now nowIso st selectedRoom).guest.departure = st.departureDate ∧
    (assembleBooking now nowIso st selectedRoom).guest.roomRate = selectedRoom.rate ∧
    (assembleBooking now nowIso st selectedRoom).guest.fullName = st.guestData.fullName ∧
    (assembleBooking now nowIso st selectedRoom).guest.email = st.guestData.email ∧
    (assembleBooking now nowIso st selectedRoom).guest.guestClassification =
      st.guestData.guestClassification ∧
    (assembleBooking now nowIso st selectedRoom).guest.travelAgent = st.guestData.travelAgent ∧
    (assembleBooking now nowIso st selectedRoom).guest.company = st.guestData.company ∧
    (assembleBooking now nowIso st selectedRoom).guest.source = st.guestData.source ∧
    (assembleBooking now nowIso st selectedRoom).guest.group = st.guestData.group ∧
    (assembleBooking now nowIso st selectedRoom).guest.vip = st.guestData.vip ∧
    (assembleBooking now nowIso st selectedRoom).guest.nationality = st.guestData.nationality ∧
    (assembleBooking now nowIso st selectedRoom).guest.telephone = st.guestData.telephone ∧
    (assembleBooking now nowIso st selectedRoom).guest.roomNo = st.guestData.roomNo ∧
    (assembleBooking now nowIso st selectedRoom).guest.rateCode = st.guestData.rateCode ∧
    (assembleBooking now nowIso st selectedRoom).guest.payment = st.guestData.payment ∧
    (assembleBooking now nowIso st selectedRoom).guest.resId = st.guestData.resId ∧
    (assembleBooking now nowIso st selectedRoom).guest.profileId = st.guestData.profileId := by
  refine ⟨?_, rfl, rfl, rfl, rfl, rfl, rfl, rfl, rfl, rfl, rfl, rfl, rfl,
    rfl, rfl, rfl, rfl, rfl, rfl, rfl, rfl, rfl, rfl, rfl, rfl, rfl⟩
  simp only [handleConfirmBooking, h]

/-- Witness for C4 amended: the concrete state with room-1 selected. -/
theorem handleConfirmBooking_assembly_witness :
    getSelectedRoom sampleState = some sampleRoom ∧
    handleConfirmBooking 99 "2024-01-16T00:00:00.000Z" sampleState =
      sampleState.bookings ++
        [assembleBooking 99 "2024-01-16T00:00:00.000Z" sampleState sampleRoom] :=
  ⟨rfl, (handleConfirmBooking_assembly 99 "2024-01-16T00:00:00.000Z"
    sampleState sampleRoom rfl).1⟩

/-- C6: `handleConfirmBooking` only ever appends: the resulting bookings
list is the prior list either unchanged or with exactly one new booking
appended at the end, and the prior bookings survive unchanged as a prefix. -/
theorem handleConfirmBooking_appendOnly (now : ℕ) (nowIso : String)
    (st : BookingFormState) :
    (handleConfirmBooking now nowIso st = st.bookings ∨
      ∃ b : Booking, handleConfirmBooking now nowIso st = st.bookings ++ [b]) ∧
    (handleConfirmBooking now nowIso st).take st.bookings.length = st.bookings := by
  refine ⟨?_, ?_⟩ <;> rcases h : getSelectedRoom st with _ | r
  · exact Or.inl (by simp only [handleConfirmBooking, h])
  · exact Or.inr ⟨assembleBooking now nowIso st r,
      by simp only [handleConfirmBooking, h]⟩
  · simp [handleConfirmBooking, h]
  · simp [handleConfirmBooking, h, List.take_left]

/-- C9: when the selected room id matches no room in the loaded rooms
list, `handleConfirmBooking` changes nothing: no booking is created and the
bookings list is exactly as before. -/
theorem handleConfirmBooking_unknownRoom (now : ℕ) (nowIso : String)
    (st : BookingFormState)
    (h : ∀ room ∈ st.rooms, room.id ≠ st.selectedRoomId) :
    handleConfirmBooking now nowIso st = st.bookings := by
  have hfind : getSelectedRoom st = none := by
    rw [getSelectedRoom, List.find?_eq_none]
    intro room hr
    simpa using h room hr
  simp only [handleConfirmBooking, hfind]

/-- Witness for C9: a state with a nonempty rooms list, none of whose ids
match the selected `room-404`, and a nonempty bookings list that survives
untouched. -/
theorem handleConfirmBooking_unknownRoom_witness :
    (∀ room ∈ sampleStateNoRoom.rooms, room.id ≠ sampleStateNoRoom.selectedRoomId) ∧
    handleConfirmBooking 7 "2024-01-17T00:00:00.000Z" sampleStateNoRoom =
      sampleStateNoRoom.bookings :=
  ⟨by decide, handleConfirmBooking_unknownRoom 7 "2024-01-17T00:00:00.000Z"
    sampleStateNoRoom (by decide)⟩

end BookingApp
